import Mathlib

/-!
Shallow embedding of `arya_common` (files `storage.py` and `rag_notify.py`).

Conventions of the embedding:
* Python `str` is Lean `String`; the Python string operations used by the
  source (`startswith`, slicing, `split("/", 1)`, `lower`, `strip`) are
  implemented structurally over `String.data : List Char` so that they
  compute by `decide`/`rfl`.
* Bytes are `List Nat` (each entry < 256); `str.encode("utf-8")` is the
  standard UTF-8 encoding `utf8Str`.
* Fallible Python code (raising `ValueError` / `RuntimeError`) is modelled
  with `Except`: an `Except.error` result means the function raised before
  performing any of the side effects it would otherwise perform.
* Filesystem / object-store side effects of `write_jsonl` are reified as a
  list of `Effect` values returned on success; an error result means no
  effect (no I/O) was performed, matching the source where every `raise`
  happens before any I/O call.
* The gzip compressor is an external library (`gzip` module), passed as an
  explicit function parameter `gz`; its round-trip property is taken as a
  hypothesis where a claim needs it.
* `os.getenv` values are explicit `Option String` parameters; `boto3`
  availability is an explicit `Bool` parameter.
-/

namespace AryaCommon

/-- Python `pat` is a prefix of `s`, over character lists (`s.startswith(pat)`). -/
def startsChars : List Char → List Char → Bool
  | [], _ => true
  | _ :: _, [] => false
  | p :: ps, c :: cs => p == c && startsChars ps cs

/-- Python `s.split(sep, 1)`: split at the first occurrence of `sep`;
`none` when `sep` does not occur (Python would return a one-element list). -/
def splitFirst : List Char → Char → Option (List Char × List Char)
  | [], _ => none
  | c :: cs, sep =>
    if c == sep then some ([], cs)
    else
      match splitFirst cs sep with
      | none => none
      | some (a, b) => some (c :: a, b)

/-- Python `s.lower()` (ASCII-relevant part, via `Char.toLower`). -/
def charsLower (cs : List Char) : List Char := cs.map Char.toLower

/-- Python `s.strip()`: drop whitespace from both ends. -/
def trimChars (cs : List Char) : List Char :=
  ((cs.dropWhile Char.isWhitespace).reverse.dropWhile Char.isWhitespace).reverse

/-- Python `s.lower().strip()` as used by `encode_lines`. -/
def pyLowerTrim (s : String) : String := String.mk (trimChars (charsLower s.data))

/-- Standard UTF-8 encoding of one character (what `str.encode("utf-8")` does per char). -/
def utf8Char (c : Char) : List Nat :=
  let n := c.toNat
  if n < 0x80 then [n]
  else if n < 0x800 then [0xC0 + n / 64, 0x80 + n % 64]
  else if n < 0x10000 then [0xE0 + n / 4096, 0x80 + (n / 64) % 64, 0x80 + n % 64]
  else [0xF0 + n / 262144, 0x80 + (n / 4096) % 64, 0x80 + (n / 64) % 64, 0x80 + n % 64]

/-- Python `s.encode("utf-8")` as a list of byte values. -/
def utf8Str (s : String) : List Nat := s.data.foldr (fun c acc => utf8Char c ++ acc) []

/-- The distinct error surfaces of `storage.py` (each a `ValueError` /
`RuntimeError` raise site in the source). -/
inductive StorageErr where
  /-- `ValueError("S3 URI not valid: ...")` — `parse_uri`, line 63. -/
  | invalidS3Uri (uri : String)
  /-- `ValueError("Non valid or unsupported URI: ...")` — `parse_uri`, line 67
  (the error a URI with an unrecognized scheme surfaces). -/
  | unsupportedUri (uri : String)
  /-- `ValueError("Unsupported URI scheme: ...")` — `write_jsonl`, line 44. -/
  | unsupportedScheme (scheme : String)
  /-- `ValueError("Unsupported compression: ...")` — `encode_lines`, line 98. -/
  | unsupportedCompression (compression : String)
  /-- `RuntimeError("boto3 not found...")` — `write_jsonl`, line 36. -/
  | boto3Missing
deriving DecidableEq

/-- The I/O side effects `write_jsonl` can perform, in order. -/
inductive Effect where
  /-- `out_path.parent.mkdir(parents=True, exist_ok=True)`. -/
  | mkdirParents (path : String)
  /-- `out_path.open("wb")` followed by `f.write(payload)`. -/
  | fileWrite (path : String) (payload : List Nat)
  /-- `s3.put_object(Bucket=bucket, Key=key, Body=payload)`. -/
  | s3Put (bucket : String) (key : String) (payload : List Nat)
deriving DecidableEq

/-- `storage.parse_uri`: recognizes only `s3://bucket/key`; returns
`(scheme, bucket, key_or_path)`. -/
def parse_uri (uri : String) : Except StorageErr (String × Option String × String) :=
  if startsChars "s3://".data uri.data then
    let rest := uri.data.drop 5
    match splitFirst rest '/' with
    | some (bucket, key) =>
      if bucket.isEmpty || key.isEmpty then .error (.invalidS3Uri uri)
      else .ok ("s3", some (String.mk bucket), String.mk key)
    | none => .error (.invalidS3Uri uri)
  else .error (.unsupportedUri uri)

/-- `storage.resolve_out_path`: `Path(os.getenv("ARYA_OUT_ROOT", ".")).joinpath(rel_path)`.
The environment variable is the explicit parameter `outRoot`. -/
def resolve_out_path (outRoot : Option String) (rel_path : String) : String :=
  let root := outRoot.getD "."
  root ++ "/" ++ rel_path

/-- `pathlib.Path.parent` of a path string: everything before the last `/`,
or `.` when there is no `/`. -/
def parentDir (p : String) : String :=
  match splitFirst p.data.reverse '/' with
  | none => "."
  | some (_, revBefore) => String.mk revBefore.reverse

/-- `storage.join_with_newlines`: `"\n"` for an empty list, otherwise
`"\n".join(lines) + "\n"`. -/
def join_with_newlines (lines : List String) : String :=
  if lines.isEmpty then "\n" else String.intercalate "\n" lines ++ "\n"

/-- `storage.encode_lines`: join the lines, UTF-8 encode, then apply the
selected compression (`none` or `gzip`, after `lower().strip()`); any other
name raises `ValueError` before any I/O. The external gzip compressor is the
parameter `gz`. -/
def encode_lines (gz : List Nat → List Nat) (lines : List String)
    (compression : String := "gzip") : Except StorageErr (List Nat) :=
  let text := join_with_newlines lines
  let raw := utf8Str text
  let comp := pyLowerTrim compression
  if comp == "none" then .ok raw
  else if comp == "gzip" then .ok (gz raw)
  else .error (.unsupportedCompression compression)

/-- `storage.write_jsonl`: parse the URI, encode the lines (note the default
`compression="zstd"` of the source), then dispatch on the scheme. On success
the returned list is the sequence of I/O effects performed; on error no I/O
was performed. -/
def write_jsonl (outRoot : Option String) (hasBoto3 : Bool) (gz : List Nat → List Nat)
    (object_uri : String) (lines : List String) (compression : String := "zstd") :
    Except StorageErr (List Effect) :=
  match parse_uri object_uri with
  | .error e => .error e
  | .ok (scheme, bucket, key_or_path) =>
    match encode_lines gz lines compression with
    | .error e => .error e
    | .ok payload =>
      if scheme = "out" then
        let out_path := resolve_out_path outRoot key_or_path
        .ok [.mkdirParents (parentDir out_path), .fileWrite out_path payload]
      else if scheme = "s3" then
        if hasBoto3 then .ok [.s3Put (bucket.getD "") key_or_path payload]
        else .error .boto3Missing
      else .error (.unsupportedScheme scheme)

/-- Claim-side predicate (C9): the remainder of an `s3://` URI does not split
into a non-empty bucket and a non-empty key at the first `/`. -/
def badS3Rest (rest : List Char) : Bool :=
  match splitFirst rest '/' with
  | none => true
  | some (bucket, key) => bucket.isEmpty || key.isEmpty

/-- JSON values, for the notification payload bodies built in `rag_notify.py`. -/
inductive JVal where
  | null
  | str (s : String)
  | int (n : Int)
  | obj (fields : List (String × JVal))

/-- Python `x if x is not None else None` embedding for optional strings in payloads. -/
def optStr : Option String → JVal
  | none => .null
  | some s => .str s

/-- Python truthiness-based `a or b` for strings: `b` when `a` is `None` or
empty, else `a` (this is `idem_key or str(uuid.uuid4())` in the source). -/
def pyOrStr (a : Option String) (b : String) : String :=
  match a with
  | none => b
  | some s => if s == "" then b else s

/-- `RAGNotifier._headers(idem)`: `Content-Type`, then `Authorization` when
the api key is truthy, then `Idempotency-Key` when `idem` is truthy. -/
def headersFor (apiKey : String) (idem : Option String) : List (String × String) :=
  let h := [("Content-Type", "application/json")]
  let h := if apiKey == "" then h else h ++ [("Authorization", "Bearer " ++ apiKey)]
  match idem with
  | none => h
  | some s => if s == "" then h else h ++ [("Idempotency-Key", s)]

/-- What `client.post(...)` yields on one attempt: an HTTP response with a
status code, or a transport-level exception (timeout, connection error). -/
inductive AttemptOutcome where
  | status (code : Nat)
  | transportFailure
deriving DecidableEq

/-- The error raised out of one attempt of `_post_with_retry`:
`RuntimeError(f"HTTP {status}: ...")` or the transport exception. -/
inductive SendError where
  | httpFailure (status : Nat)
  | transportFailure
deriving DecidableEq

/-- One attempt body of `_post_with_retry`: 2xx returns, 409 returns, any
other status raises `RuntimeError`, a transport failure raises; both kinds of
raise are caught by the `except` and treated as a retryable failure. -/
def attemptResult : AttemptOutcome → Except SendError Unit
  | .status code =>
    if 200 ≤ code ∧ code < 300 then .ok ()
    else if code = 409 then .ok ()
    else .error (.httpFailure code)
  | .transportFailure => .error .transportFailure

/-- The arguments `_post_with_retry` closes over for building each request
(`url`, `json_payload`, `self.api_key`, `idem_key`). -/
structure Call where
  url : String
  payload : JVal
  apiKey : String
  idemKey : String

/-- One HTTP request as issued by an attempt: target URL, JSON body, headers. -/
structure Request where
  url : String
  payload : JVal
  headers : List (String × String)

/-- The request an attempt issues: `client.post(url, json=json_payload,
headers=self._headers(idem_key))`. -/
def mkRequest (c : Call) : Request :=
  { url := c.url, payload := c.payload, headers := headersFor c.apiKey (some c.idemKey) }

/-- Observable trace of one `_post_with_retry` call: how many attempts ran,
the request of each attempt in order, the sleep durations (seconds, exact
rationals) between attempts, and the final outcome (`ok` for a normal
return, `error` for the exception propagated to the caller). -/
structure RetryTrace where
  attempts : Nat
  requests : List Request
  sleeps : List ℚ
  result : Except SendError Unit

/-- The `for attempt in range(1, max_retries + 1)` loop of `_post_with_retry`,
as structural recursion on the remaining iteration count: `attempt` is the
current attempt number; `remaining = 0` means the loop is exhausted (Python
then falls off the loop and returns `None`). On a failed attempt, the source
re-raises when `attempt == max_retries` (here: `remaining` after this
iteration is `0`) and otherwise sleeps `backoff_base * 2 ** (attempt - 1)`
and continues. -/
def retryAux (c : Call) (transport : Nat → AttemptOutcome) (backoffBase : ℚ)
    (attempt : Nat) : Nat → RetryTrace
  | 0 => ⟨0, [], [], .ok ()⟩
  | remaining + 1 =>
    match attemptResult (transport attempt) with
    | .ok () => ⟨1, [mkRequest c], [], .ok ()⟩
    | .error e =>
      if remaining = 0 then ⟨1, [mkRequest c], [], .error e⟩
      else
        let t := retryAux c transport backoffBase (attempt + 1) remaining
        ⟨t.attempts + 1, mkRequest c :: t.requests,
          backoffBase * 2 ^ (attempt - 1) :: t.sleeps, t.result⟩

/-- `RAGNotifier._post_with_retry`: run the attempt loop starting at attempt 1
with `max_retries` iterations available. The transport (the remote service
plus network) is the explicit function `transport` from attempt number to
outcome. -/
def postWithRetry (c : Call) (transport : Nat → AttemptOutcome)
    (maxRetries : Nat) (backoffBase : ℚ) : RetryTrace :=
  retryAux c transport backoffBase 1 maxRetries

/-- `RAGNotifier.notify_meeting_created`: build the `meeting_created` payload,
choose the idempotency key (`idem_key or str(uuid.uuid4())`, with the freshly
generated UUID passed as the explicit parameter `freshKey`), and delegate to
`postWithRetry`. -/
def notify_meeting_created (baseUrl apiKey freshKey : String)
    (meeting_id org_id : String) (title started_at : Option String)
    (metadata : Option (List (String × JVal))) (idem_key : Option String)
    (transport : Nat → AttemptOutcome)
    (max_retries : Nat := 3) (backoff_base : ℚ := 1/2) : RetryTrace :=
  let url := baseUrl ++ "/meetings/notify"
  let payload := JVal.obj
    [("type", .str "meeting_created"),
     ("meeting_id", .str meeting_id),
     ("org_id", .str org_id),
     ("title", optStr title),
     ("started_at", optStr started_at),
     ("metadata", .obj (metadata.getD []))]
  let idem := pyOrStr idem_key freshKey
  postWithRetry ⟨url, payload, apiKey, idem⟩ transport max_retries backoff_base

/-- `RAGNotifier.notify_finalize_ready`: build the `finalize_ready` payload,
choose the idempotency key the same way, and delegate to `postWithRetry`. -/
def notify_finalize_ready (baseUrl apiKey freshKey : String)
    (meeting_id org_id object_uri : String) (version count : Int)
    (checksum : String) (idem_key : Option String)
    (transport : Nat → AttemptOutcome)
    (max_retries : Nat := 3) (backoff_base : ℚ := 1/2) : RetryTrace :=
  let url := baseUrl ++ "/meetings/notify"
  let payload := JVal.obj
    [("type", .str "finalize_ready"),
     ("meeting_id", .str meeting_id),
     ("org_id", .str org_id),
     ("object_uri", .str object_uri),
     ("version", .int version),
     ("count", .int count),
     ("checksum", .str checksum)]
  let idem := pyOrStr idem_key freshKey
  postWithRetry ⟨url, payload, apiKey, idem⟩ transport max_retries backoff_base

/-! Helper lemmas shared by the claim theorems. -/

theorem write_jsonl_of_parse_error (outRoot : Option String) (hasBoto3 : Bool)
    (gz : List Nat → List Nat) (uri : String) (lines : List String)
    (compression : String) (e : StorageErr) (h : parse_uri uri = .error e) :
    write_jsonl outRoot hasBoto3 gz uri lines compression = .error e := by
  unfold write_jsonl
  rw [h]

theorem encode_lines_unrecognized (gz : List Nat → List Nat) (lines : List String)
    (compression : String) (h1 : pyLowerTrim compression ≠ "none")
    (h2 : pyLowerTrim compression ≠ "gzip") :
    encode_lines gz lines compression = .error (.unsupportedCompression compression) := by
  simp [encode_lines, h1, h2]

theorem write_jsonl_of_encode_error (outRoot : Option String) (hasBoto3 : Bool)
    (gz : List Nat → List Nat) (uri : String) (lines : List String)
    (compression : String) (v : String × Option String × String) (e : StorageErr)
    (hp : parse_uri uri = .ok v)
    (he : encode_lines gz lines compression = .error e) :
    write_jsonl outRoot hasBoto3 gz uri lines compression = .error e := by
  obtain ⟨s, b, k⟩ := v
  unfold write_jsonl
  rw [hp, he]

theorem parse_uri_invalid (uri : String)
    (hs3 : startsChars "s3://".data uri.data = true)
    (hbad : badS3Rest (uri.data.drop 5) = true) :
    parse_uri uri = .error (.invalidS3Uri uri) := by
  unfold parse_uri
  unfold badS3Rest at hbad
  cases h : splitFirst (uri.data.drop 5) '/' with
  | none => simp [hs3, h]
  | some p =>
    obtain ⟨b, k⟩ := p
    simp_all

theorem parse_uri_unrecognized (uri : String)
    (hs3 : startsChars "s3://".data uri.data = false) :
    parse_uri uri = .error (.unsupportedUri uri) := by
  unfold parse_uri
  rw [hs3]
  simp

/-! Claim theorems for the writer (`storage.py`). -/

/-- C1: the claim says every local-output (`out://`) URI is resolved against
the environment-sourced root, parent directories are created and the encoded
payload is written. The code refutes this: `parse_uri` recognizes only
`s3://`, so every `out://` URI raises `ValueError("Non valid or unsupported
URI")` and the local-write branch of `write_jsonl` is unreachable. This
theorem evaluates the code at a failing input: regardless of the root
directory, boto3 availability and compressor, the write fails and performs
no I/O. -/
theorem claim_C1_local_scheme_unreachable (outRoot : Option String) (hasBoto3 : Bool)
    (gz : List Nat → List Nat) (lines : List String) :
    write_jsonl outRoot hasBoto3 gz "out://results/final.jsonl" lines "none" =
      .error (.unsupportedUri "out://results/final.jsonl") :=
  write_jsonl_of_parse_error _ _ _ _ _ _ _ (parse_uri_unrecognized _ (by decide))

/-- C2: for every destination URI that parses successfully and every list of
lines, calling `write_jsonl` without an explicit compression argument (so
with the declared default `"zstd"`) raises the unsupported-compression error
and performs no write, since `"zstd"` is not among the recognized names. -/
theorem claim_C2_default_compression_raises (outRoot : Option String) (hasBoto3 : Bool)
    (gz : List Nat → List Nat) (uri : String) (lines : List String)
    (h : ∃ v, parse_uri uri = .ok v) :
    write_jsonl outRoot hasBoto3 gz uri lines = .error (.unsupportedCompression "zstd") := by
  obtain ⟨v, hv⟩ := h
  exact write_jsonl_of_encode_error _ _ _ _ _ _ v _ hv
    (encode_lines_unrecognized _ _ _ (by decide) (by decide))

/-- Witness for C2 at the concrete valid URI `s3://bucket/final/a.jsonl`. -/
theorem claim_C2_witness :
    (∃ v, parse_uri "s3://bucket/final/a.jsonl" = .ok v) ∧
      write_jsonl none true id "s3://bucket/final/a.jsonl" ["{}"] =
        .error (.unsupportedCompression "zstd") :=
  ⟨⟨("s3", some "bucket", "final/a.jsonl"), rfl⟩,
    claim_C2_default_compression_raises none true id _ ["{}"]
      ⟨("s3", some "bucket", "final/a.jsonl"), rfl⟩⟩

/-- C6, counterexample to the claim as stated: the claim quantifies over
every destination URI, but for a URI that does not parse (here
`ftp://host/path`) with the unrecognized compression `"zstd"`, `write_jsonl`
fails with the URI error, not with the unsupported-compression error,
because `parse_uri` runs before `encode_lines`. -/
theorem claim_C6_counterexample :
    write_jsonl (some ".") true id "ftp://host/path" ["x"] "zstd" ≠
        .error (.unsupportedCompression "zstd") ∧
      write_jsonl (some ".") true id "ftp://host/path" ["x"] "zstd" =
        .error (.unsupportedUri "ftp://host/path") := by
  have he : write_jsonl (some ".") true id "ftp://host/path" ["x"] "zstd" =
      .error (.unsupportedUri "ftp://host/path") :=
    write_jsonl_of_parse_error _ _ _ _ _ _ _ (parse_uri_unrecognized _ (by decide))
  refine ⟨fun hc => ?_, he⟩
  rw [he] at hc
  simp at hc

/-- C6 as amended: for every destination URI that parses successfully, if the
requested compression name is recognized neither as identity (`none`) nor as
gzip after lower-casing and trimming, `write_jsonl` fails with the
unsupported-compression error before performing any filesystem or
object-store I/O. -/
theorem claim_C6_unsupported_compression (outRoot : Option String) (hasBoto3 : Bool)
    (gz : List Nat → List Nat) (uri : String) (lines : List String) (compression : String)
    (v : String × Option String × String) (hp : parse_uri uri = .ok v)
    (h1 : pyLowerTrim compression ≠ "none") (h2 : pyLowerTrim compression ≠ "gzip") :
    write_jsonl outRoot hasBoto3 gz uri lines compression =
      .error (.unsupportedCompression compression) :=
  write_jsonl_of_encode_error _ _ _ _ _ _ v _ hp (encode_lines_unrecognized _ _ _ h1 h2)

/-- Witness for the amended C6 at the valid URI `s3://b/k` and compression `zstd`. -/
theorem claim_C6_witness :
    parse_uri "s3://b/k" = .ok ("s3", some "b", "k") ∧
      pyLowerTrim "zstd" ≠ "none" ∧ pyLowerTrim "zstd" ≠ "gzip" ∧
      write_jsonl none true id "s3://b/k" ["x"] "zstd" =
        .error (.unsupportedCompression "zstd") :=
  ⟨rfl, by decide, by decide,
    claim_C6_unsupported_compression none true id _ ["x"] "zstd" _ rfl (by decide) (by decide)⟩

/-- C7: identity (`none`) encoding yields the UTF-8 bytes of the lines joined
by a single newline with one trailing newline appended; in particular the
empty list encodes to the single newline byte `[10]` and `["a", "b"]`
encodes to the bytes of `"a\n b\n"` without the space, `[97, 10, 98, 10]`. -/
theorem claim_C7_identity_encoding (gz : List Nat → List Nat) (lines : List String) :
    encode_lines gz lines "none" = .ok (utf8Str (String.intercalate "\n" lines ++ "\n")) ∧
      encode_lines gz [] "none" = .ok [10] ∧
      encode_lines gz ["a", "b"] "none" = .ok [97, 10, 98, 10] := by
  refine ⟨?_, rfl, rfl⟩
  cases lines with
  | nil => rfl
  | cons l ls => rfl

/-- C8: for every compressor/decompressor pair satisfying the gzip round-trip
property (decompression inverts compression — the documented contract of the
external gzip module), decompressing `encode_lines lines "gzip"` yields
exactly the bytes of `encode_lines lines "none"`. -/
theorem claim_C8_gzip_roundtrip (gz gzInv : List Nat → List Nat)
    (hround : ∀ bs, gzInv (gz bs) = bs) (lines : List String) :
    (encode_lines gz lines "gzip").map gzInv = encode_lines gz lines "none" := by
  show Except.map gzInv (.ok (gz (utf8Str (join_with_newlines lines)))) =
    .ok (utf8Str (join_with_newlines lines))
  simp [Except.map, hround]

/-- Witness for C8 with the concrete invertible pair prepend-zero / drop-head. -/
theorem claim_C8_witness :
    (∀ bs : List Nat, (0 :: bs).tail = bs) ∧
      (encode_lines (fun bs => 0 :: bs) ["a"] "gzip").map (fun bs => bs.tail) =
        encode_lines (fun bs => 0 :: bs) ["a"] "none" :=
  ⟨fun _ => rfl, claim_C8_gzip_roundtrip _ _ (fun _ => rfl) ["a"]⟩

/-- C9: for every `s3://` URI whose remainder does not split into a non-empty
bucket and a non-empty key at the first `/`, `write_jsonl` fails with the
invalid-URI error; the error result means no network or backend call was
made. -/
theorem claim_C9_invalid_s3_uri (outRoot : Option String) (hasBoto3 : Bool)
    (gz : List Nat → List Nat) (uri : String) (lines : List String) (compression : String)
    (hs3 : startsChars "s3://".data uri.data = true)
    (hbad : badS3Rest (uri.data.drop 5) = true) :
    write_jsonl outRoot hasBoto3 gz uri lines compression = .error (.invalidS3Uri uri) :=
  write_jsonl_of_parse_error _ _ _ _ _ _ _ (parse_uri_invalid uri hs3 hbad)

/-- Witness for C9 at the concrete URI `s3://bucket` (missing key segment). -/
theorem claim_C9_witness :
    startsChars "s3://".data "s3://bucket".data = true ∧
      badS3Rest ("s3://bucket".data.drop 5) = true ∧
      write_jsonl none true id "s3://bucket" ["x"] "gzip" =
        .error (.invalidS3Uri "s3://bucket") :=
  ⟨by decide, by decide,
    claim_C9_invalid_s3_uri none true id _ ["x"] "gzip" (by decide) (by decide)⟩

/-- C10: for every destination URI whose scheme is neither of the two
recognized schemes (it starts with neither `s3://` nor `out://`),
`write_jsonl` fails with the unsupported-URI error raised by `parse_uri`;
the error result means no write was attempted. -/
theorem claim_C10_unsupported_scheme (outRoot : Option String) (hasBoto3 : Bool)
    (gz : List Nat → List Nat) (uri : String) (lines : List String) (compression : String)
    (hns3 : startsChars "s3://".data uri.data = false)
    (_hnout : startsChars "out://".data uri.data = false) :
    write_jsonl outRoot hasBoto3 gz uri lines compression = .error (.unsupportedUri uri) :=
  write_jsonl_of_parse_error _ _ _ _ _ _ _ (parse_uri_unrecognized uri hns3)

/-- Witness for C10 at the concrete URI `ftp://host/path`. -/
theorem claim_C10_witness :
    startsChars "s3://".data "ftp://host/path".data = false ∧
      startsChars "out://".data "ftp://host/path".data = false ∧
      write_jsonl none true id "ftp://host/path" ["x"] "gzip" =
        .error (.unsupportedUri "ftp://host/path") :=
  ⟨by decide, by decide,
    claim_C10_unsupported_scheme none true id _ ["x"] "gzip" (by decide) (by decide)⟩

/-! Lemmas about the retry loop of `_post_with_retry`. -/

/-- When every attempt fails, the loop runs all remaining iterations, issues
the same request each time, sleeps the exponential-backoff schedule, and
ends with the error of the last attempt. -/
theorem retryAux_all_fail (c : Call) (transport : Nat → AttemptOutcome) (b : ℚ)
    (hfail : ∀ i, attemptResult (transport i) ≠ .ok ()) :
    ∀ r a, retryAux c transport b a (r + 1) =
      ⟨r + 1, List.replicate (r + 1) (mkRequest c),
        (List.range' a r).map (fun i => b * 2 ^ (i - 1)),
        attemptResult (transport (a + r))⟩ := by
  intro r
  induction r with
  | zero =>
    intro a
    unfold retryAux
    cases h : attemptResult (transport a) with
    | ok u => exact absurd h (hfail a)
    | error e => simp [h]
  | succ r ih =>
    intro a
    unfold retryAux
    cases h : attemptResult (transport a) with
    | ok u => exact absurd h (hfail a)
    | error e =>
      simp only [Nat.succ_ne_zero, if_false, ih (a + 1)]
      rw [List.range'_succ, show a + 1 + r = a + (r + 1) from by omega]
      simp [List.replicate_succ]

/-- When the attempts `a, ..., a + k - 1` fail and attempt `a + k` succeeds
(with `k` strictly below the remaining iteration count), the loop stops right
after the succeeding attempt, having issued `k + 1` identical requests. -/
theorem retryAux_succeeds_at (c : Call) (transport : Nat → AttemptOutcome) (b : ℚ) :
    ∀ k a r, k < r →
      (∀ i, a ≤ i → i < a + k → attemptResult (transport i) ≠ .ok ()) →
      attemptResult (transport (a + k)) = .ok () →
      retryAux c transport b a r =
        ⟨k + 1, List.replicate (k + 1) (mkRequest c),
          (List.range' a k).map (fun i => b * 2 ^ (i - 1)), .ok ()⟩ := by
  intro k
  induction k with
  | zero =>
    intro a r hr hfail hsucc
    obtain ⟨r, rfl⟩ := Nat.exists_eq_succ_of_ne_zero (Nat.pos_iff_ne_zero.mp hr)
    unfold retryAux
    rw [Nat.add_zero] at hsucc
    rw [hsucc]
    simp
  | succ k ih =>
    intro a r hr hfail hsucc
    obtain ⟨r, rfl⟩ := Nat.exists_eq_succ_of_ne_zero (Nat.pos_iff_ne_zero.mp (Nat.lt_of_le_of_lt (Nat.zero_le _) hr))
    unfold retryAux
    cases h : attemptResult (transport a) with
    | ok u =>
      exact absurd h (hfail a (Nat.le_refl a) (Nat.lt_add_of_pos_right (Nat.succ_pos k)))
    | error e =>
      have hrpos : r ≠ 0 := by omega
      have ihr := ih (a + 1) r (by omega)
        (fun i h1 h2 => hfail i (by omega) (by omega))
        (by rw [show a + 1 + k = a + (k + 1) from by omega]; exact hsucc)
      simp only [hrpos, if_false, ihr]
      rw [List.range'_succ]
      simp [List.replicate_succ]

/-- When the attempts `a, ..., a + m - 1` all fail and at least `m + 1`
iterations remain, the loop makes at least `m + 1` attempts. -/
theorem retryAux_attempts_lower (c : Call) (transport : Nat → AttemptOutcome) (b : ℚ) :
    ∀ m a r, m < r →
      (∀ i, a ≤ i → i < a + m → attemptResult (transport i) ≠ .ok ()) →
      m + 1 ≤ (retryAux c transport b a r).attempts := by
  intro m
  induction m with
  | zero =>
    intro a r hr hfail
    obtain ⟨r, rfl⟩ := Nat.exists_eq_succ_of_ne_zero (Nat.pos_iff_ne_zero.mp hr)
    unfold retryAux
    cases h : attemptResult (transport a) with
    | ok u => simp
    | error e =>
      by_cases hr0 : r = 0
      · simp [hr0]
      · simp [hr0]
  | succ m ih =>
    intro a r hr hfail
    obtain ⟨r, rfl⟩ := Nat.exists_eq_succ_of_ne_zero (Nat.pos_iff_ne_zero.mp (Nat.lt_of_le_of_lt (Nat.zero_le _) hr))
    unfold retryAux
    cases h : attemptResult (transport a) with
    | ok u =>
      exact absurd h (hfail a (Nat.le_refl a) (Nat.lt_add_of_pos_right (Nat.succ_pos m)))
    | error e =>
      have hrpos : r ≠ 0 := by omega
      have ihr := ih (a + 1) r (by omega) (fun i h1 h2 => hfail i (by omega) (by omega))
      simp only [hrpos, if_false]
      simpa using Nat.add_le_add_right ihr 1

/-- When attempts `1, ..., N - 1` fail and attempt `N` succeeds with
`N ≤ max_retries`, `_post_with_retry` returns normally after exactly `N`
attempts, each issuing the same request. -/
theorem postWithRetry_succeeds (c : Call) (transport : Nat → AttemptOutcome)
    (maxRetries : Nat) (b : ℚ) (N : Nat) (hN1 : 1 ≤ N) (hN2 : N ≤ maxRetries)
    (hfail : ∀ i, 1 ≤ i → i < N → attemptResult (transport i) ≠ .ok ())
    (hsucc : attemptResult (transport N) = .ok ()) :
    postWithRetry c transport maxRetries b =
      ⟨N, List.replicate N (mkRequest c),
        (List.range' 1 (N - 1)).map (fun i => b * 2 ^ (i - 1)), .ok ()⟩ := by
  obtain ⟨k, rfl⟩ := Nat.exists_eq_succ_of_ne_zero (by omega : N ≠ 0)
  unfold postWithRetry
  rw [retryAux_succeeds_at c transport b k 1 maxRetries (by omega)
    (fun i h1 h2 => hfail i h1 (by omega))
    (by rw [show 1 + k = k + 1 from by omega]; exact hsucc)]
  simp

/-- Python `idem_key or str(uuid.uuid4())` yields a non-empty key whenever
the generated UUID string is non-empty. -/
theorem pyOrStr_ne_empty (a : Option String) (b : String) (hb : b ≠ "") :
    pyOrStr a b ≠ "" := by
  cases a with
  | none => exact hb
  | some s =>
    by_cases hs : s = ""
    · simpa [pyOrStr, hs] using hb
    · simp [pyOrStr, hs]

/-- A truthy idempotency key appears in the headers `_headers` builds. -/
theorem idem_header_mem (apiKey idem : String) (h : idem ≠ "") :
    ("Idempotency-Key", idem) ∈ headersFor apiKey (some idem) := by
  by_cases ha : apiKey = ""
  · simp [headersFor, h, ha]
  · simp [headersFor, h, ha]

/-- Under the fail-then-succeed scenario, the trace of `_post_with_retry`
returns success after exactly `N` attempts and every issued request carries
the call's idempotency key. -/
theorem retry_call_props (c : Call) (transport : Nat → AttemptOutcome)
    (maxRetries : Nat) (b : ℚ) (N : Nat) (hkey : c.idemKey ≠ "")
    (hN1 : 1 ≤ N) (hN2 : N ≤ maxRetries)
    (hfail : ∀ i, 1 ≤ i → i < N → attemptResult (transport i) ≠ .ok ())
    (hsucc : attemptResult (transport N) = .ok ()) :
    (postWithRetry c transport maxRetries b).attempts = N ∧
      (postWithRetry c transport maxRetries b).result = .ok () ∧
      (postWithRetry c transport maxRetries b).requests.length = N ∧
      ∀ req ∈ (postWithRetry c transport maxRetries b).requests,
        ("Idempotency-Key", c.idemKey) ∈ req.headers := by
  rw [postWithRetry_succeeds c transport maxRetries b N hN1 hN2 hfail hsucc]
  refine ⟨rfl, rfl, by simp, ?_⟩
  intro req hreq
  rw [List.eq_of_mem_replicate hreq]
  exact idem_header_mem c.apiKey c.idemKey hkey

/-! Claim theorems for the notifier (`rag_notify.py`). -/

/-- C3: for every `max_retries ≥ 1` and `backoff_base`, if every attempt of
the notification send fails, exactly `max_retries` attempts are made, the
sleep before attempt `i + 1` is `backoff_base * 2 ^ (i - 1)` seconds (the
sleeps list runs over `i = 1, ..., max_retries - 1`), and the error of the
last attempt is raised to the caller. -/
theorem claim_C3_retries_exhausted (c : Call) (transport : Nat → AttemptOutcome)
    (maxRetries : Nat) (b : ℚ) (hmr : 1 ≤ maxRetries)
    (hfail : ∀ i, attemptResult (transport i) ≠ .ok ()) :
    (postWithRetry c transport maxRetries b).attempts = maxRetries ∧
      (postWithRetry c transport maxRetries b).sleeps =
        (List.range' 1 (maxRetries - 1)).map (fun i => b * 2 ^ (i - 1)) ∧
      (postWithRetry c transport maxRetries b).result =
        attemptResult (transport maxRetries) ∧
      (postWithRetry c transport maxRetries b).result ≠ .ok () := by
  obtain ⟨r, rfl⟩ := Nat.exists_eq_succ_of_ne_zero (by omega : maxRetries ≠ 0)
  unfold postWithRetry
  rw [retryAux_all_fail c transport b hfail r 1]
  refine ⟨rfl, by simp, by rw [Nat.add_comm 1 r], ?_⟩
  rw [Nat.add_comm 1 r]
  exact hfail _

/-- Witness for C3: with `max_retries = 3`, `backoff_base = 1/2` and a
transport failing every attempt with HTTP 500, exactly 3 attempts run, the
sleeps are `1/2 * 2 ^ 0` and `1/2 * 2 ^ 1` seconds (0.5s then 1s), and the
HTTP 500 error of the last attempt is raised. -/
theorem claim_C3_witness :
    (postWithRetry ⟨"https://rag.example.com/meetings/notify", .obj [], "", "idem-1"⟩
        (fun _ => .status 500) 3 (1/2)).attempts = 3 ∧
      (postWithRetry ⟨"https://rag.example.com/meetings/notify", .obj [], "", "idem-1"⟩
          (fun _ => .status 500) 3 (1/2)).sleeps =
        (List.range' 1 2).map (fun i => (1/2 : ℚ) * 2 ^ (i - 1)) ∧
      (postWithRetry ⟨"https://rag.example.com/meetings/notify", .obj [], "", "idem-1"⟩
          (fun _ => .status 500) 3 (1/2)).result =
        attemptResult (.status 500) ∧
      (postWithRetry ⟨"https://rag.example.com/meetings/notify", .obj [], "", "idem-1"⟩
          (fun _ => .status 500) 3 (1/2)).result ≠ .ok () :=
  claim_C3_retries_exhausted _ _ 3 (1/2) (by decide)
    (fun i => by simp [attemptResult])

/-- C4: for every notify call (meeting-created or finalize-ready), a single
idempotency key (caller-supplied when truthy, else the freshly generated
UUID) is chosen before the first attempt and sent in the `Idempotency-Key`
header of every attempt; if the transport fails the first `N - 1` attempts
and succeeds on the `N`-th with `N ≤ max_retries`, the call returns success
after exactly `N` attempts. -/
theorem claim_C4_idempotency_key_stable (baseUrl apiKey freshKey : String)
    (meeting_id org_id : String) (title started_at : Option String)
    (metadata : Option (List (String × JVal)))
    (object_uri : String) (version count : Int) (checksum : String)
    (idem_key : Option String) (maxRetries : Nat) (b : ℚ)
    (transport : Nat → AttemptOutcome) (N : Nat)
    (hfresh : freshKey ≠ "") (hN1 : 1 ≤ N) (hN2 : N ≤ maxRetries)
    (hfail : ∀ i, 1 ≤ i → i < N → attemptResult (transport i) ≠ .ok ())
    (hsucc : attemptResult (transport N) = .ok ()) :
    ((notify_meeting_created baseUrl apiKey freshKey meeting_id org_id title
        started_at metadata idem_key transport maxRetries b).attempts = N ∧
      (notify_meeting_created baseUrl apiKey freshKey meeting_id org_id title
        started_at metadata idem_key transport maxRetries b).result = .ok () ∧
      (notify_meeting_created baseUrl apiKey freshKey meeting_id org_id title
        started_at metadata idem_key transport maxRetries b).requests.length = N ∧
      ∀ req ∈ (notify_meeting_created baseUrl apiKey freshKey meeting_id org_id title
        started_at metadata idem_key transport maxRetries b).requests,
        ("Idempotency-Key", pyOrStr idem_key freshKey) ∈ req.headers) ∧
    ((notify_finalize_ready baseUrl apiKey freshKey meeting_id org_id object_uri
        version count checksum idem_key transport maxRetries b).attempts = N ∧
      (notify_finalize_ready baseUrl apiKey freshKey meeting_id org_id object_uri
        version count checksum idem_key transport maxRetries b).result = .ok () ∧
      (notify_finalize_ready baseUrl apiKey freshKey meeting_id org_id object_uri
        version count checksum idem_key transport maxRetries b).requests.length = N ∧
      ∀ req ∈ (notify_finalize_ready baseUrl apiKey freshKey meeting_id org_id object_uri
        version count checksum idem_key transport maxRetries b).requests,
        ("Idempotency-Key", pyOrStr idem_key freshKey) ∈ req.headers) := by
  have hkey := pyOrStr_ne_empty idem_key freshKey hfresh
  exact ⟨retry_call_props _ transport maxRetries b N hkey hN1 hN2 hfail hsucc,
    retry_call_props _ transport maxRetries b N hkey hN1 hN2 hfail hsucc⟩

/-- C5: status classification and its effect on the loop — an HTTP status in
`[200, 300)` or equal to `409` is exactly what makes an attempt return
normally; at the first such attempt the call stops with no further attempts,
while a failing attempt (any other status, or a transport failure) with
retries remaining leads to at least one further attempt. -/
theorem claim_C5_status_classification (c : Call) (transport : Nat → AttemptOutcome)
    (maxRetries : Nat) (b : ℚ) (k : Nat) (hk1 : 1 ≤ k) (hk2 : k ≤ maxRetries)
    (hfail : ∀ i, 1 ≤ i → i < k → attemptResult (transport i) ≠ .ok ()) :
    (∀ code, attemptResult (.status code) = .ok () ↔
        ((200 ≤ code ∧ code < 300) ∨ code = 409)) ∧
      attemptResult .transportFailure ≠ .ok () ∧
      (attemptResult (transport k) = .ok () →
        (postWithRetry c transport maxRetries b).attempts = k ∧
          (postWithRetry c transport maxRetries b).result = .ok ()) ∧
      (attemptResult (transport k) ≠ .ok () → k < maxRetries →
        k + 1 ≤ (postWithRetry c transport maxRetries b).attempts) := by
  refine ⟨?_, by simp [attemptResult], ?_, ?_⟩
  · intro code
    simp only [attemptResult]
    split_ifs with h1 h2
    · exact iff_of_true rfl (Or.inl h1)
    · exact iff_of_true rfl (Or.inr h2)
    · exact iff_of_false (by simp) (by tauto)
  · intro hsucc
    rw [postWithRetry_succeeds c transport maxRetries b k hk1 hk2 hfail hsucc]
    exact ⟨rfl, rfl⟩
  · intro hfk hkm
    exact retryAux_attempts_lower c transport b k 1 maxRetries hkm
      (fun i h1 h2 => by
        rcases Nat.lt_or_ge i k with h | h
        · exact hfail i h1 h
        · have hik : i = k := by omega
          rw [hik]
          exact hfk)

/-- Witness for C5 with a transport that returns HTTP 500 on attempt 1 and
HTTP 409 on attempt 2, with `max_retries = 3`. -/
theorem claim_C5_witness :
    (∀ code, attemptResult (.status code) = .ok () ↔
        ((200 ≤ code ∧ code < 300) ∨ code = 409)) ∧
      attemptResult .transportFailure ≠ .ok () ∧
      (attemptResult ((fun i => if i = 1 then .status 500 else .status 409) 2) = .ok () →
        (postWithRetry ⟨"https://rag.example.com/meetings/notify", .obj [], "", "idem-2"⟩
            (fun i => if i = 1 then .status 500 else .status 409) 3 (1/2)).attempts = 2 ∧
          (postWithRetry ⟨"https://rag.example.com/meetings/notify", .obj [], "", "idem-2"⟩
              (fun i => if i = 1 then .status 500 else .status 409) 3 (1/2)).result = .ok ()) ∧
      (attemptResult ((fun i => if i = 1 then .status 500 else .status 409) 2) ≠ .ok () →
        2 < 3 →
        2 + 1 ≤ (postWithRetry ⟨"https://rag.example.com/meetings/notify", .obj [], "", "idem-2"⟩
            (fun i => if i = 1 then .status 500 else .status 409) 3 (1/2)).attempts) :=
  claim_C5_status_classification
    ⟨"https://rag.example.com/meetings/notify", .obj [], "", "idem-2"⟩
    (fun i => if i = 1 then .status 500 else .status 409) 3 (1/2) 2
    (by decide) (by decide)
    (fun i h1 h2 => by
      have hik : i = 1 := by omega
      rw [hik]
      simp [attemptResult])

/-- Witness for C4: caller-supplied key `idem-7`, transport failing attempt 1
and succeeding with HTTP 200 on attempt 2, `max_retries = 3`. -/
theorem claim_C4_witness :
    ((notify_meeting_created "https://rag.example.com" "k" "uuid-1" "m" "o" none none
        none (some "idem-7") (fun i => if i = 1 then .transportFailure else .status 200)
        3 (1/2)).attempts = 2 ∧
      (notify_meeting_created "https://rag.example.com" "k" "uuid-1" "m" "o" none none
        none (some "idem-7") (fun i => if i = 1 then .transportFailure else .status 200)
        3 (1/2)).result = .ok () ∧
      (notify_meeting_created "https://rag.example.com" "k" "uuid-1" "m" "o" none none
        none (some "idem-7") (fun i => if i = 1 then .transportFailure else .status 200)
        3 (1/2)).requests.length = 2 ∧
      ∀ req ∈ (notify_meeting_created "https://rag.example.com" "k" "uuid-1" "m" "o" none
        none none (some "idem-7") (fun i => if i = 1 then .transportFailure else .status 200)
        3 (1/2)).requests,
        ("Idempotency-Key", pyOrStr (some "idem-7") "uuid-1") ∈ req.headers) ∧
    ((notify_finalize_ready "https://rag.example.com" "k" "uuid-1" "m" "o" "s3://b/k" 1 2
        "sha" (some "idem-7") (fun i => if i = 1 then .transportFailure else .status 200)
        3 (1/2)).attempts = 2 ∧
      (notify_finalize_ready "https://rag.example.com" "k" "uuid-1" "m" "o" "s3://b/k" 1 2
        "sha" (some "idem-7") (fun i => if i = 1 then .transportFailure else .status 200)
        3 (1/2)).result = .ok () ∧
      (notify_finalize_ready "https://rag.example.com" "k" "uuid-1" "m" "o" "s3://b/k" 1 2
        "sha" (some "idem-7") (fun i => if i = 1 then .transportFailure else .status 200)
        3 (1/2)).requests.length = 2 ∧
      ∀ req ∈ (notify_finalize_ready "https://rag.example.com" "k" "uuid-1" "m" "o"
        "s3://b/k" 1 2 "sha" (some "idem-7")
        (fun i => if i = 1 then .transportFailure else .status 200) 3 (1/2)).requests,
        ("Idempotency-Key", pyOrStr (some "idem-7") "uuid-1") ∈ req.headers) :=
  claim_C4_idempotency_key_stable "https://rag.example.com" "k" "uuid-1" "m" "o" none none
    none "s3://b/k" 1 2 "sha" (some "idem-7") 3 (1/2)
    (fun i => if i = 1 then .transportFailure else .status 200) 2
    (by decide) (by decide) (by decide)
    (fun i h1 h2 => by
      have hik : i = 1 := by omega
      rw [hik]
      simp [attemptResult])
    rfl

end AryaCommon
